import Mathlib

/-!
# Verification of the USAAF strategic-bombing data scripts

Shallow embedding of the data-handling logic of `app.py` (Streamlit dashboard)
and `visualize_usaaf_bombing.py` (plot generation) from the
`strategic_bombing_data` repository, together with proofs settling the frozen
claims about the natural-language specification.

Modelling conventions:
* pandas numeric cells are rationals (`ℚ`); a possibly-missing (NaN) cell is
  `Option ℚ` with `none` for NaN;
* Python/NumPy float→int conversion (`astype(int)`, `int(...)`) truncates
  toward zero, modelled by `truncToZero`;
* Python strings are lists of code points (`List Nat`); `str.strip` /
  `str.upper` are modelled on ASCII data (`pyStrip` / `pyUpper`);
* a dataframe is a list of rows, order preserved.
-/

namespace StrategicBombing

/-- Python `int(x)` / NumPy `.astype(int)` on a float: truncation toward zero. -/
def truncToZero (q : ℚ) : ℤ :=
if 0 ≤ q then ⌊q⌋ else ⌈q⌉

/-- `app.py`, `load_data` (lines 97–101): when the table has a raw `YEAR`
offset column but no `Year` column, the dashboard derives
`Year = int(1940 + YEAR)` and then rewrites outliers in two passes:
rows with `Year < 1939` are set to `1940`, then rows with `Year > 1946`
are set to `1945`. -/
def dashboardYear (offset : ℚ) : ℤ :=
let y := truncToZero (1940 + offset)
let y2 := if y < 1939 then 1940 else y
if y2 > 1946 then 1945 else y2

/-- `visualize_usaaf_bombing.py` (lines 24–29): the plotting script derives
`Year = int(1940 + YEAR)` (after `fillna(0)`) and rewrites outliers:
rows with `Year < 1941` become `1941`, then rows with `Year > 1946`
become `1945`.  This is the derivation applied to one (present) offset. -/
def plotYearDerive (offset : ℚ) : ℤ :=
let y := truncToZero (1940 + offset)
let y2 := if y < 1941 then 1941 else y
if y2 > 1946 then 1945 else y2

/-- `visualize_usaaf_bombing.py` line 25: the raw `YEAR` column is first
`fillna(0)`, so a missing offset is treated as `0` before derivation. -/
def plotYear (offset : Option ℚ) : ℤ :=
plotYearDerive (offset.getD 0)

/-- The dashboard loader's year derivation written as the single
clamp expression used by the claim's wording: derive `int(1940 + offset)`,
then send values below 1939 to 1940 and values above 1946 to 1945. -/
def dashboardYearClaim (offset : ℚ) : ℤ :=
let y := truncToZero (1940 + offset)
if y < 1939 then 1940 else if y > 1946 then 1945 else y

theorem truncToZero_intCast (n : ℤ) : truncToZero (n : ℚ) = n := by
unfold truncToZero
split_ifs <;> simp

/-- **C2.** The dashboard loader's `Year` derivation and the plotting
script's `Year` derivation disagree: both start from `int(1940 + offset)`,
the dashboard clamps at 1939/1946 (floor value 1940, ceiling value 1945)
while the plotting script clamps at 1941/1946 (floor value 1941, ceiling
value 1945); at offset `0` the dashboard yields `1940` but the plotting
script yields `1941`, so the two derivation functions are not equal. -/
theorem dashboard_plot_year_disagree :
    dashboardYear 0 = 1940 ∧ plotYearDerive 0 = 1941 ∧
      dashboardYear 0 ≠ plotYearDerive 0 ∧
      ∃ offset : ℚ, dashboardYear offset ≠ plotYearDerive offset := by
have h : truncToZero (1940 + (0 : ℚ)) = 1940 := by
  have := truncToZero_intCast 1940
  norm_num at this ⊢
  exact this
have hd : dashboardYear 0 = 1940 := by
  unfold dashboardYear
  rw [h]
  norm_num
have hp : plotYearDerive 0 = 1941 := by
  unfold plotYearDerive
  rw [h]
  norm_num
refine ⟨hd, hp, ?_, ⟨0, ?_⟩⟩ <;> rw [hd, hp] <;> decide

/-- **C3.** For every raw `YEAR` offset, the dashboard loader (when the
table lacks a `Year` column) derives `Year = int(1940 + offset)` and then
clamps: derived years below 1939 become 1940, derived years above 1946
become 1945; in particular offset `0` gives `Year = 1940` unchanged and
offset `-5` (derived year 1935) is clamped to the floor value 1940 rather
than remaining 1935. -/
theorem dashboardYear_clamp :
    (∀ offset : ℚ, dashboardYear offset = dashboardYearClaim offset) ∧
      dashboardYear 0 = 1940 ∧ dashboardYear (-5) = 1940 := by
have heq : ∀ offset : ℚ, dashboardYear offset = dashboardYearClaim offset := by
  intro offset
  unfold dashboardYear dashboardYearClaim
  dsimp only
  split_ifs <;> omega
have h0 : truncToZero (1940 + (0 : ℚ)) = 1940 := by
  have := truncToZero_intCast 1940
  norm_num at this ⊢
  exact this
have h5 : truncToZero (1940 + (-5 : ℚ)) = 1935 := by
  have := truncToZero_intCast 1935
  norm_num at this ⊢
  exact this
refine ⟨heq, ?_, ?_⟩
· unfold dashboardYear
  rw [h0]
  norm_num
· unfold dashboardYear
  rw [h5]
  norm_num

/-! ## Score categories (`visualize_usaaf_bombing.py`, lines 144–149) -/

/-- The five labels passed to `pd.cut`. -/
inductive ScoreCategory where
| veryPrecise
| precise
| mixed
| area
| heavyArea
deriving DecidableEq, Repr

/-- `visualize_usaaf_bombing.py` lines 146–149:
`pd.cut(df['AREA_BOMBING_SCORE_NORMALIZED'], bins=[0, 2, 4, 6, 8, 10], labels=[...])`.
With pandas' defaults (`right=True`, `include_lowest=False`) the bins are the
right-closed intervals `(0,2], (2,4], (4,6], (6,8], (8,10]`; a value outside
`(0,10]` — in particular a score of exactly `0` — receives no label (NaN). -/
def scoreCategory (x : ℚ) : Option ScoreCategory :=
if 0 < x ∧ x ≤ 2 then some .veryPrecise
else if 2 < x ∧ x ≤ 4 then some .precise
else if 4 < x ∧ x ≤ 6 then some .mixed
else if 6 < x ∧ x ≤ 8 then some .area
else if 8 < x ∧ x ≤ 10 then some .heavyArea
else none

/-- The binning as the claim words it: closed-left/open-right bins
`[0,2), [2,4), [4,6), [6,8)` and a final bin `[8,10]` closed on both ends. -/
def leftClosedCategory (x : ℚ) : Option ScoreCategory :=
if 0 ≤ x ∧ x < 2 then some .veryPrecise
else if 2 ≤ x ∧ x < 4 then some .precise
else if 4 ≤ x ∧ x < 6 then some .mixed
else if 6 ≤ x ∧ x < 8 then some .area
else if 8 ≤ x ∧ x ≤ 10 then some .heavyArea
else none

lemma scoreCategory_eq_vp (x : ℚ) :
    scoreCategory x = some ScoreCategory.veryPrecise ↔ 0 < x ∧ x ≤ 2 := by
constructor
· intro h
  unfold scoreCategory at h
  split_ifs at h with h1 h2 h3 h4 h5 <;> simp_all
· intro hx
  unfold scoreCategory
  rw [if_pos hx]

lemma scoreCategory_eq_pr (x : ℚ) :
    scoreCategory x = some ScoreCategory.precise ↔ 2 < x ∧ x ≤ 4 := by
constructor
· intro h
  unfold scoreCategory at h
  split_ifs at h with h1 h2 h3 h4 h5 <;> simp_all
· intro hx
  have h1 : ¬(0 < x ∧ x ≤ 2) := by rintro ⟨a, b⟩; linarith [hx.1]
  unfold scoreCategory
  rw [if_neg h1, if_pos hx]

lemma scoreCategory_eq_mx (x : ℚ) :
    scoreCategory x = some ScoreCategory.mixed ↔ 4 < x ∧ x ≤ 6 := by
constructor
· intro h
  unfold scoreCategory at h
  split_ifs at h with h1 h2 h3 h4 h5 <;> simp_all
· intro hx
  have h1 : ¬(0 < x ∧ x ≤ 2) := by rintro ⟨a, b⟩; linarith [hx.1]
  have h2 : ¬(2 < x ∧ x ≤ 4) := by rintro ⟨a, b⟩; linarith [hx.1]
  unfold scoreCategory
  rw [if_neg h1, if_neg h2, if_pos hx]

lemma scoreCategory_eq_ar (x : ℚ) :
    scoreCategory x = some ScoreCategory.area ↔ 6 < x ∧ x ≤ 8 := by
constructor
· intro h
  unfold scoreCategory at h
  split_ifs at h with h1 h2 h3 h4 h5 <;> simp_all
· intro hx
  have h1 : ¬(0 < x ∧ x ≤ 2) := by rintro ⟨a, b⟩; linarith [hx.1]
  have h2 : ¬(2 < x ∧ x ≤ 4) := by rintro ⟨a, b⟩; linarith [hx.1]
  have h3 : ¬(4 < x ∧ x ≤ 6) := by rintro ⟨a, b⟩; linarith [hx.1]
  unfold scoreCategory
  rw [if_neg h1, if_neg h2, if_neg h3, if_pos hx]

lemma scoreCategory_eq_ha (x : ℚ) :
    scoreCategory x = some ScoreCategory.heavyArea ↔ 8 < x ∧ x ≤ 10 := by
constructor
· intro h
  unfold scoreCategory at h
  split_ifs at h with h1 h2 h3 h4 h5 <;> simp_all
· intro hx
  have h1 : ¬(0 < x ∧ x ≤ 2) := by rintro ⟨a, b⟩; linarith [hx.1]
  have h2 : ¬(2 < x ∧ x ≤ 4) := by rintro ⟨a, b⟩; linarith [hx.1]
  have h3 : ¬(4 < x ∧ x ≤ 6) := by rintro ⟨a, b⟩; linarith [hx.1]
  have h4 : ¬(6 < x ∧ x ≤ 8) := by rintro ⟨a, b⟩; linarith [hx.1]
  unfold scoreCategory
  rw [if_neg h1, if_neg h2, if_neg h3, if_neg h4, if_pos hx]

lemma scoreCategory_eq_none (x : ℚ) (h0 : 0 ≤ x) (h10 : x ≤ 10) :
    scoreCategory x = none ↔ x = 0 := by
constructor
· intro h
  by_contra hx
  have hpos : 0 < x := lt_of_le_of_ne h0 (Ne.symm hx)
  rcases le_or_lt x 2 with c1 | c1
  · rw [(scoreCategory_eq_vp x).mpr ⟨hpos, c1⟩] at h; exact Option.noConfusion h
  rcases le_or_lt x 4 with c2 | c2
  · rw [(scoreCategory_eq_pr x).mpr ⟨c1, c2⟩] at h; exact Option.noConfusion h
  rcases le_or_lt x 6 with c3 | c3
  · rw [(scoreCategory_eq_mx x).mpr ⟨c2, c3⟩] at h; exact Option.noConfusion h
  rcases le_or_lt x 8 with c4 | c4
  · rw [(scoreCategory_eq_ar x).mpr ⟨c3, c4⟩] at h; exact Option.noConfusion h
  · rw [(scoreCategory_eq_ha x).mpr ⟨c4, h10⟩] at h; exact Option.noConfusion h
· rintro rfl
  decide

/-- **C1 (counterexample).** The claim's left-closed binning disagrees with the
code's `pd.cut` binning: a score of exactly `0` receives no category (NaN),
not 'Very Precise', and a score of exactly `2` is classified 'Very Precise',
not 'Precise'. -/
theorem scoreCategory_left_closed_refuted :
    scoreCategory 0 ≠ leftClosedCategory 0 ∧ scoreCategory 2 ≠ leftClosedCategory 2 ∧
      scoreCategory 0 = none ∧ leftClosedCategory 0 = some ScoreCategory.veryPrecise ∧
      scoreCategory 2 = some ScoreCategory.veryPrecise ∧
      leftClosedCategory 2 = some ScoreCategory.precise := by
refine ⟨?_, ?_, ?_, ?_, ?_, ?_⟩ <;> decide

/-- **C1 (amended).** For every score in `[0,10]`, 'Score Category' is the bin
of the five right-closed intervals under `pd.cut`'s default semantics:
`(0,2]` Very Precise, `(2,4]` Precise, `(4,6]` Mixed, `(6,8]` Area,
`(8,10]` Heavy Area — each bin open on the left and closed on the right —
and a score of exactly `0` falls in no bin (its category is missing). -/
theorem scoreCategory_right_closed_partition (x : ℚ) (h0 : 0 ≤ x) (h10 : x ≤ 10) :
    (scoreCategory x = none ↔ x = 0) ∧
      (scoreCategory x = some ScoreCategory.veryPrecise ↔ 0 < x ∧ x ≤ 2) ∧
      (scoreCategory x = some ScoreCategory.precise ↔ 2 < x ∧ x ≤ 4) ∧
      (scoreCategory x = some ScoreCategory.mixed ↔ 4 < x ∧ x ≤ 6) ∧
      (scoreCategory x = some ScoreCategory.area ↔ 6 < x ∧ x ≤ 8) ∧
      (scoreCategory x = some ScoreCategory.heavyArea ↔ 8 < x ∧ x ≤ 10) :=
⟨scoreCategory_eq_none x h0 h10, scoreCategory_eq_vp x, scoreCategory_eq_pr x,
  scoreCategory_eq_mx x, scoreCategory_eq_ar x, scoreCategory_eq_ha x⟩

/-- Witness for C1's amended theorem at the concrete score `3`. -/
theorem scoreCategory_right_closed_partition_witness :
    (0 : ℚ) ≤ 3 ∧ (3 : ℚ) ≤ 10 ∧ (scoreCategory 3 = some ScoreCategory.precise ↔ 2 < (3 : ℚ) ∧ (3 : ℚ) ≤ 4) :=
⟨by norm_num, by norm_num,
  (scoreCategory_right_closed_partition 3 (by norm_num) (by norm_num)).2.2.1⟩

/-! ## Incendiary / HE derived columns and means -/

/-- pandas `fillna(0)` on one cell: a missing value becomes `0`. -/
def fillna0 (v : Option ℚ) : ℚ :=
v.getD 0

/-- `visualize_usaaf_bombing.py` line 469: `HE_PERCENT = 100 - INCENDIARY_PERCENT`
computed after line 468's `INCENDIARY_PERCENT.fillna(0)`. -/
def HE_PERCENT (inc : Option ℚ) : ℚ :=
100 - fillna0 inc

/-- `visualize_usaaf_bombing.py` line 470: `HE_TONS = TOTAL_TONS * HE_PERCENT / 100`. -/
def HE_TONS (inc : Option ℚ) (totalTons : ℚ) : ℚ :=
totalTons * HE_PERCENT inc / 100

/-- `visualize_usaaf_bombing.py` line 471:
`INCENDIARY_TONS = TOTAL_TONS * INCENDIARY_PERCENT / 100` (filled column). -/
def INCENDIARY_TONS (inc : Option ℚ) (totalTons : ℚ) : ℚ :=
totalTons * fillna0 inc / 100

/-- `app.py` line 83: `filtered_df['INCENDIARY_PERCENT'].mean()`.  pandas
`Series.mean()` defaults to `skipna=True`: the mean of the defined entries;
missing entries are excluded from both the sum and the count. -/
def meanSkipNA (xs : List (Option ℚ)) : ℚ :=
(xs.filterMap id).sum / ((xs.filterMap id).length : ℚ)

/-- The average as the claim words it: a missing entry contributes `0` to the
sum but still counts toward the number of rows. -/
def meanTreatMissingAsZero (xs : List (Option ℚ)) : ℚ :=
(xs.map fillna0).sum / (xs.length : ℚ)

/-- **C6 (counterexample).** The dashboard's average incendiary percentage does
not count a missing value as `0`: on the two-row column `[NaN, 10]` pandas'
skip-NaN mean gives `10`, while counting the missing row as `0` would give
`5`. -/
theorem incendiary_mean_skips_missing :
    meanSkipNA [none, some 10] = 10 ∧ meanTreatMissingAsZero [none, some 10] = 5 ∧
      meanSkipNA [none, some 10] ≠ meanTreatMissingAsZero [none, some 10] := by
have h1 : meanSkipNA [none, some 10] = 10 := by
  simp [meanSkipNA]
have h2 : meanTreatMissingAsZero [none, some 10] = 5 := by
  simp [meanTreatMissingAsZero, fillna0]
  norm_num
refine ⟨h1, h2, ?_⟩
rw [h1, h2]
norm_num

/-- **C6 (amended).** The plotting script's derived columns treat a missing
`incendiary_percent` as `0` (`HE_PERCENT = 100`, `INCENDIARY_TONS = 0`,
`HE_TONS = TOTAL_TONS`), but the dashboard's average incendiary percentage
excludes missing values from the mean entirely (a missing row contributes
nothing, not `0`). -/
theorem incendiary_missing_handling :
    (∀ t : ℚ, HE_PERCENT none = 100 ∧ INCENDIARY_TONS none t = 0 ∧ HE_TONS none t = t) ∧
      ∀ xs : List (Option ℚ), meanSkipNA (none :: xs) = meanSkipNA xs := by
constructor
· intro t
  refine ⟨?_, ?_, ?_⟩ <;> simp [HE_PERCENT, HE_TONS, INCENDIARY_TONS, fillna0]
· intro xs
  simp [meanSkipNA]

/-- **C9.** For a row with a present `incendiary_percent` `i` and total tonnage
`t`, the derived columns satisfy `HE_PERCENT = 100 - i`,
`HE_TONS = t * (100 - i) / 100`, `INCENDIARY_TONS = t * i / 100`, and
`HE_TONS + INCENDIARY_TONS = t` exactly, in exact rational arithmetic. -/
theorem he_incendiary_exact (i t : ℚ) (inc : Option ℚ) (h : inc = some i) :
    HE_PERCENT inc = 100 - i ∧ HE_TONS inc t = t * (100 - i) / 100 ∧
      INCENDIARY_TONS inc t = t * i / 100 ∧
      HE_TONS inc t + INCENDIARY_TONS inc t = t := by
subst h
refine ⟨?_, ?_, ?_, ?_⟩ <;> simp [HE_PERCENT, HE_TONS, INCENDIARY_TONS, fillna0] <;> ring

/-- Witness for C9 at `incendiary_percent = 25`, `total_tons = 40`. -/
theorem he_incendiary_exact_witness :
    (some (25 : ℚ) = some 25) ∧
      (HE_PERCENT (some 25) = 100 - 25 ∧ HE_TONS (some 25) 40 = 40 * (100 - 25) / 100 ∧
        INCENDIARY_TONS (some 25) 40 = 40 * 25 / 100 ∧
        HE_TONS (some 25) 40 + INCENDIARY_TONS (some 25) 40 = 40) :=
⟨rfl, he_incendiary_exact 25 40 (some 25) rfl⟩

/-! ## The normalized score's range (C4) and group means -/

/-- Modelled from the spec: the scoring engine that computes
`AREA_BOMBING_SCORE_NORMALIZED` is not among this repository's two source
files — both read the already-scored CSV
`processed_data/usaaf/usaaf_raids_full.csv`.  Spec §4.1 describes the score as
a weighted combination of the three sub-scores — `TARGET_SCORE ∈ {0,1}` scaled
by `10`, and `TONNAGE_SCORE`, `INCENDIARY_SCORE` each normalized into
`[0,10]` (the component ranges the radar chart in
`visualize_usaaf_bombing.py` lines 113–131 relies on) — with comparable
(equal-thirds) weights, scaled to the fixed range `[0,10]`. -/
def AREA_BOMBING_SCORE_NORMALIZED (target tonnage incendiary : ℚ) : ℚ :=
(10 * target + tonnage + incendiary) / 3

/-- Group mean, as used by the `groupby(...)['AREA_BOMBING_SCORE_NORMALIZED']`
aggregations (`mean`) of `visualize_usaaf_bombing.py` lines 165, 225, 244–249. -/
def listMean (xs : List ℚ) : ℚ :=
xs.sum / (xs.length : ℚ)

lemma mul_length_le_sum (xs : List ℚ) (lo : ℚ) (h : ∀ x ∈ xs, lo ≤ x) :
    lo * xs.length ≤ xs.sum := by
induction xs with
| nil => simp
| cons a t ih =>
  have ha := h a (by simp)
  have ht := ih fun x hx => h x (List.mem_cons_of_mem a hx)
  simp only [List.sum_cons, List.length_cons]
  push_cast
  linarith

lemma sum_le_mul_length (xs : List ℚ) (hi : ℚ) (h : ∀ x ∈ xs, x ≤ hi) :
    xs.sum ≤ hi * xs.length := by
induction xs with
| nil => simp
| cons a t ih =>
  have ha := h a (by simp)
  have ht := ih fun x hx => h x (List.mem_cons_of_mem a hx)
  simp only [List.sum_cons, List.length_cons]
  push_cast
  linarith

lemma listMean_mem_Icc (xs : List ℚ) (lo hi : ℚ) (hxs : xs ≠ [])
    (hmem : ∀ x ∈ xs, lo ≤ x ∧ x ≤ hi) : lo ≤ listMean xs ∧ listMean xs ≤ hi := by
have hlen : 0 < (xs.length : ℚ) := by
  have := List.length_pos.mpr hxs
  exact_mod_cast this
have hlo := mul_length_le_sum xs lo fun x hx => (hmem x hx).1
have hhi := sum_le_mul_length xs hi fun x hx => (hmem x hx).2
constructor
· rw [listMean, le_div_iff₀ hlen]
  linarith
· rw [listMean, div_le_iff₀ hlen]
  linarith

/-- **C4.** (spec-modelled scoring) For every row, the normalized area-bombing
score lies in `[0,10]`, and the grouping operations the pipeline performs over
the score column (group means) preserve this range; binning (`pd.cut`) reads
but never alters the score. -/
theorem area_score_range (target tonnage incendiary : ℚ) (xs : List ℚ)
    (ht : target = 0 ∨ target = 1) (hton0 : 0 ≤ tonnage) (hton10 : tonnage ≤ 10)
    (hinc0 : 0 ≤ incendiary) (hinc10 : incendiary ≤ 10)
    (hxs : xs ≠ []) (hmem : ∀ x ∈ xs, 0 ≤ x ∧ x ≤ 10) :
    (0 ≤ AREA_BOMBING_SCORE_NORMALIZED target tonnage incendiary ∧
        AREA_BOMBING_SCORE_NORMALIZED target tonnage incendiary ≤ 10) ∧
      0 ≤ listMean xs ∧ listMean xs ≤ 10 := by
refine ⟨⟨?_, ?_⟩, listMean_mem_Icc xs 0 10 hxs hmem⟩ <;>
  rcases ht with rfl | rfl <;> rw [AREA_BOMBING_SCORE_NORMALIZED] <;> linarith

/-- Witness for C4 at `target = 1`, `tonnage = 5`, `incendiary = 5`,
group `[3, 7]`. -/
theorem area_score_range_witness :
    ((1 : ℚ) = 0 ∨ (1 : ℚ) = 1) ∧
      ((0 : ℚ) ≤ AREA_BOMBING_SCORE_NORMALIZED 1 5 5 ∧
          AREA_BOMBING_SCORE_NORMALIZED 1 5 5 ≤ 10) ∧
        0 ≤ listMean [3, 7] ∧ listMean [3, 7] ≤ 10 :=
⟨Or.inr rfl,
  area_score_range 1 5 5 [3, 7] (Or.inr rfl) (by norm_num) (by norm_num) (by norm_num)
    (by norm_num) (by simp) (by
      intro x hx
      simp only [List.mem_cons, List.mem_singleton, List.not_mem_nil, or_false] at hx
      rcases hx with rfl | rfl <;> norm_num)⟩

/-! ## Category percentage breakdowns (C5) -/

/-- `visualize_usaaf_bombing.py` lines 184–186 (and 329–330):
`crosstab.div(crosstab.sum(axis=1), axis=0) * 100` — one group's row of
category counts, each divided by the group total and multiplied by 100. -/
def pctBreakdown (counts : List ℕ) : List ℚ :=
counts.map fun (c : ℕ) => (c : ℚ) / (counts.sum : ℚ) * 100

lemma sum_map_div_const (l : List ℕ) (S : ℚ) :
    (l.map fun (c : ℕ) => (c : ℚ) / S * 100).sum = (l.sum : ℚ) / S * 100 := by
induction l with
| nil => simp
| cons a t ih =>
  simp only [List.map_cons, List.sum_cons, ih]
  push_cast
  ring

/-- **C5.** For every grouping key with at least one classified raid, the
category-percentage breakdown — each category count divided by the group
total, times 100 — sums to exactly 100 in exact arithmetic, hence to 100
within the claimed tolerance of 0.01. -/
theorem pct_breakdown_sums_to_100 (counts : List ℕ) (h : 0 < counts.sum) :
    (pctBreakdown counts).sum = 100 ∧ |(pctBreakdown counts).sum - 100| ≤ 1 / 100 := by
have hS : ((counts.sum : ℕ) : ℚ) ≠ 0 := by
  exact_mod_cast Nat.pos_iff_ne_zero.mp h
have hsum : (pctBreakdown counts).sum = 100 := by
  rw [pctBreakdown, sum_map_div_const, div_self hS, one_mul]
refine ⟨hsum, ?_⟩
rw [hsum]
norm_num

/-- Witness for C5 on the concrete count row `[3, 1]`. -/
theorem pct_breakdown_sums_to_100_witness :
    0 < [3, 1].sum ∧ (pctBreakdown [3, 1]).sum = 100 :=
⟨by decide, (pct_breakdown_sums_to_100 [3, 1] (by decide)).1⟩

/-! ## Python string model: location normalization (C8) -/

/-- The code points Python's default `str.strip` removes (ASCII whitespace:
space, tab, newline, carriage return, vertical tab, form feed). -/
def isSpaceCode (n : ℕ) : Bool :=
n == 32 || n == 9 || n == 10 || n == 13 || n == 11 || n == 12

/-- One code point under Python `str.upper` (ASCII model): a lowercase letter
is shifted to the corresponding uppercase letter, anything else is kept. -/
def upperCode (n : ℕ) : ℕ :=
if 97 ≤ n ∧ n ≤ 122 then n - 32 else n

/-- Python `str.strip()` on a string modelled as its list of code points:
drop leading and trailing whitespace. -/
def pyStrip (s : List ℕ) : List ℕ :=
((s.dropWhile isSpaceCode).reverse.dropWhile isSpaceCode).reverse

/-- Python `str.upper()` (ASCII model). -/
def pyUpper (s : List ℕ) : List ℕ :=
s.map upperCode

/-- `app.py` line 104 / `visualize_usaaf_bombing.py` line 32:
`target_location.str.strip().str.upper()`. -/
def normalizeLocation (s : List ℕ) : List ℕ :=
pyUpper (pyStrip s)

lemma isSpaceCode_upperCode (n : ℕ) : isSpaceCode (upperCode n) = isSpaceCode n := by
rw [Bool.eq_iff_iff]
unfold upperCode isSpaceCode
split_ifs with h <;> simp only [Bool.or_eq_true, beq_iff_eq] <;> omega

lemma upperCode_idem (n : ℕ) : upperCode (upperCode n) = upperCode n := by
unfold upperCode
split_ifs <;> omega

lemma dropWhile_dropWhile (p : α → Bool) (l : List α) :
    (l.dropWhile p).dropWhile p = l.dropWhile p := by
induction l with
| nil => rfl
| cons a t ih =>
  rw [List.dropWhile_cons]
  split_ifs with h
  · exact ih
  · rw [List.dropWhile_cons, if_neg h]

lemma head_dropWhile_false (p : α → Bool) {l : List α} {x : α} {r : List α}
    (h : l.dropWhile p = x :: r) : p x = false := by
induction l with
| nil => simp at h
| cons a t ih =>
  rw [List.dropWhile_cons] at h
  split_ifs at h with hp
  · exact ih h
  · cases h
    simpa using hp

lemma pyStrip_noLeadingSpace (l : List ℕ) :
    (pyStrip l).dropWhile isSpaceCode = pyStrip l := by
unfold pyStrip
set A := l.dropWhile isSpaceCode with hA
set B := A.reverse.dropWhile isSpaceCode with hB
obtain ⟨t, ht⟩ : ∃ t, t ++ B = A.reverse := List.dropWhile_suffix isSpaceCode
rcases hBr : B.reverse with _ | ⟨x, xs⟩
· simp
have hA2 : A = x :: (xs ++ t.reverse) := by
  rw [← List.reverse_reverse A, ← ht, List.reverse_append, hBr]
  rfl
have hx : isSpaceCode x = false :=
  head_dropWhile_false isSpaceCode (l := l) (hA ▸ hA2)
rw [List.dropWhile_cons, if_neg (by simp [hx])]

lemma pyStrip_idem (l : List ℕ) : pyStrip (pyStrip l) = pyStrip l := by
have h1 := pyStrip_noLeadingSpace l
show (((pyStrip l).dropWhile isSpaceCode).reverse.dropWhile isSpaceCode).reverse = pyStrip l
rw [h1]
unfold pyStrip
rw [List.reverse_reverse, dropWhile_dropWhile]

lemma pyStrip_pyUpper (s : List ℕ) : pyStrip (pyUpper s) = pyUpper (pyStrip s) := by
have hp : (isSpaceCode ∘ upperCode) = isSpaceCode := funext isSpaceCode_upperCode
unfold pyStrip pyUpper
rw [List.dropWhile_map, hp, ← List.map_reverse, List.dropWhile_map, hp, ← List.map_reverse]

/-- **C8.** Location normalization (trim surrounding whitespace, then
uppercase) is idempotent: a string that is already trimmed and uppercased is
fixed by normalization, and hence normalizing any string twice equals
normalizing it once. -/
theorem normalizeLocation_idem (s : List ℕ) :
    (pyStrip s = s → pyUpper s = s → normalizeLocation s = s) ∧
      normalizeLocation (normalizeLocation s) = normalizeLocation s := by
constructor
· intro h1 h2
  unfold normalizeLocation
  rw [h1, h2]
· show normalizeLocation (pyUpper (pyStrip s)) = normalizeLocation s
  unfold normalizeLocation
  rw [pyStrip_pyUpper, pyStrip_idem]
  unfold pyUpper
  rw [List.map_map]
  exact List.map_congr_left fun n _ => upperCode_idem n

/-- Witness for C8 on the already-normalized string "BE" (code points 66, 69). -/
theorem normalizeLocation_idem_witness :
    pyStrip [66, 69] = [66, 69] ∧ pyUpper [66, 69] = [66, 69] ∧
      normalizeLocation [66, 69] = [66, 69] :=
⟨by decide, by decide, (normalizeLocation_idem [66, 69]).1 (by decide) (by decide)⟩

/-! ## The dashboard's row filter (C10) and plot generation gates (C7) -/

/-- One row of the processed table, restricted to the columns the dashboard's
filter touches. -/
structure Raid where
  target_location : List ℕ
  CATEGORY : List ℕ
  Year : ℤ
deriving DecidableEq, Repr

/-- A dynamically-typed Python value passed as `filter_value`. -/
inductive PyValue where
| str : List ℕ → PyValue
| int : ℤ → PyValue
deriving DecidableEq, Repr

/-- Python `==` between a string cell and a `filter_value`; values of
different types compare unequal. -/
def pyEqStr (cell : List ℕ) : PyValue → Bool
| .str s => cell == s
| .int _ => false

/-- Python `==` between an integer cell and a `filter_value`. -/
def pyEqInt (cell : ℤ) : PyValue → Bool
| .str _ => false
| .int n => cell == n

/-- `app.py` lines 44–52, `get_filtered_df`: for `"city"` keep rows whose
`target_location` equals `filter_value.upper()` (calling `.upper()` on a
non-string raises, modelled as `.error`); for `"category"` / `"year"` keep
rows whose `CATEGORY` / `Year` equals the filter value; any other
`filter_type` returns the dataframe unchanged. -/
def get_filtered_df (df : List Raid) (filter_type : String) (filter_value : PyValue) :
    Except Unit (List Raid) :=
if filter_type = "city" then
  match filter_value with
  | .str s => .ok (df.filter fun r => r.target_location == pyUpper s)
  | .int _ => .error ()
else if filter_type = "category" then
  .ok (df.filter fun r => pyEqStr r.CATEGORY filter_value)
else if filter_type = "year" then
  .ok (df.filter fun r => pyEqInt r.Year filter_value)
else
  .ok df

/-- Projection of a non-raising `get_filtered_df` result. -/
def okRows : Except Unit (List Raid) → List Raid
| .ok l => l
| .error _ => []

/-- **C10.** `get_filtered_df` keeps, for `"city"`, exactly the rows whose
`target_location` equals the uppercased filter value; for `"category"` and
`"year"`, exactly the rows whose `CATEGORY` / `Year` equals the filter value;
for any other `filter_type` it returns the input unchanged; and every
returned table is a sublist of the input (no new rows, input not mutated). -/
theorem get_filtered_df_spec (df : List Raid) (s c : List ℕ) (y : ℤ)
    (ft : String) (v : PyValue) (r : Raid) :
    (r ∈ okRows (get_filtered_df df "city" (.str s)) ↔
        r ∈ df ∧ r.target_location = pyUpper s) ∧
      (r ∈ okRows (get_filtered_df df "category" (.str c)) ↔ r ∈ df ∧ r.CATEGORY = c) ∧
      (r ∈ okRows (get_filtered_df df "year" (.int y)) ↔ r ∈ df ∧ r.Year = y) ∧
      (ft ≠ "city" → ft ≠ "category" → ft ≠ "year" → get_filtered_df df ft v = .ok df) ∧
      (∀ l, get_filtered_df df ft v = .ok l → l.Sublist df) := by
refine ⟨?_, ?_, ?_, ?_, ?_⟩
· simp [get_filtered_df, okRows, List.mem_filter]
· simp [get_filtered_df, okRows, List.mem_filter, pyEqStr]
· simp [get_filtered_df, okRows, List.mem_filter, pyEqInt]
· intro h1 h2 h3
  rw [get_filtered_df.eq_def, if_neg h1, if_neg h2, if_neg h3]
· intro l hl
  rw [get_filtered_df.eq_def] at hl
  split_ifs at hl with h1 h2 h3
  · cases v with
    | str s' =>
      simp only [Except.ok.injEq] at hl
      exact hl ▸ List.filter_sublist df
    | int n => simp at hl
  · simp only [Except.ok.injEq] at hl
    exact hl ▸ List.filter_sublist df
  · simp only [Except.ok.injEq] at hl
    exact hl ▸ List.filter_sublist df
  · simp only [Except.ok.injEq] at hl
    exact hl ▸ List.Sublist.refl df

/-- A concrete row used by witness instantiations. -/
def sampleRaid : Raid :=
{ target_location := [66, 69], CATEGORY := [79], Year := 1943 }

/-- Witness for C10: a `filter_type` outside the three handled cases returns
the table unchanged, and the year filter keeps the matching row. -/
theorem get_filtered_df_spec_witness :
    ("size" : String) ≠ "city" ∧ ("size" : String) ≠ "category" ∧ ("size" : String) ≠ "year" ∧
      get_filtered_df [sampleRaid] "size" (.int 3) = .ok [sampleRaid] ∧
      (sampleRaid ∈ okRows (get_filtered_df [sampleRaid] "year" (.int 1943)) ↔
        sampleRaid ∈ [sampleRaid] ∧ sampleRaid.Year = 1943) :=
⟨by decide, by decide, by decide,
  (get_filtered_df_spec [sampleRaid] [] [] 1943 "size" (.int 3) sampleRaid).2.2.2.1
    (by decide) (by decide) (by decide),
  (get_filtered_df_spec [sampleRaid] [] [] 1943 "size" (.int 3) sampleRaid).2.2.1⟩

/-- Which of `generate_plots`' five outputs are produced for a subset
(`visualize_usaaf_bombing.py` lines 48–142).  Chart rendering itself is
external I/O; what the claims are about is the gating control flow. -/
structure PlotOutputs where
  scoreDistribution : Bool
  tonnageScatter : Bool
  targetTypeBox : Bool
  categoryPie : Bool
  componentRadar : Bool
deriving DecidableEq, Repr

/-- `generate_plots(data, ...)`: the score-distribution histogram (step 1),
tonnage-vs-incendiary scatter (step 2) and target-type box plot (step 3) are
emitted unconditionally; the category pie chart (step 4) only under
`len(data) > 20` (line 99); the component-score radar chart (step 5) only
under `len(data) >= 5` (line 112). -/
def generate_plots (data : List Raid) : PlotOutputs :=
{ scoreDistribution := true
  tonnageScatter := true
  targetTypeBox := true
  categoryPie := decide (20 < data.length)
  componentRadar := decide (5 ≤ data.length) }

/-- **C7.** For every subset handed to `generate_plots`, the component-score
radar chart is produced iff the subset has at least 5 records; the
score-distribution, scatter and box-plot outputs are produced for every
non-empty subset with no minimum-sample gate; and the category pie chart uses
the different gate of strictly more than 20 records. -/
theorem generate_plots_gates (data : List Raid) :
    ((generate_plots data).componentRadar = true ↔ 5 ≤ data.length) ∧
      ((generate_plots data).categoryPie = true ↔ 20 < data.length) ∧
      (data ≠ [] →
        (generate_plots data).scoreDistribution = true ∧
          (generate_plots data).tonnageScatter = true ∧
          (generate_plots data).targetTypeBox = true) := by
refine ⟨?_, ?_, ?_⟩ <;> simp [generate_plots]

/-- Witness for C7 on a concrete 6-row subset: radar produced, pie not. -/
theorem generate_plots_gates_witness :
    (List.replicate 6 sampleRaid ≠ []) ∧
      ((generate_plots (List.replicate 6 sampleRaid)).componentRadar = true ↔
        5 ≤ (List.replicate 6 sampleRaid).length) ∧
      (generate_plots (List.replicate 6 sampleRaid)).scoreDistribution = true :=
⟨by decide, (generate_plots_gates (List.replicate 6 sampleRaid)).1,
  ((generate_plots_gates (List.replicate 6 sampleRaid)).2.2 (by decide)).1⟩

end StrategicBombing
